import Mathlib

/-!
Shallow embedding of the ecotrajectory simulation core
(src/ecotrajectory/environments.py and src/ecotrajectory/organisms.py).

Python floats are modelled as rationals; mutation of objects is modelled by
explicit state passing (methods return the updated object(s)); Python
exceptions are modelled with Except, carrying the exception message.
-/

namespace Ecotrajectory

/-- Tile from environments.py: a cell holding plant biomass. -/
structure Tile where
  max_plant_material : ℚ
  plant_material : ℚ
  plant_growth_rate : ℚ
deriving DecidableEq

/-- Tile.change_plant_amount: add a signed amount of plant matter, then clamp
above at max_plant_material and below at 0. -/
def Tile.change_plant_amount (t : Tile) (amount : ℚ) : Tile :=
  let p := t.plant_material + amount
  if p > t.max_plant_material then { t with plant_material := t.max_plant_material }
  else if p < 0 then { t with plant_material := 0 }
  else { t with plant_material := p }

/-- Tile.plant_grow: grow the plants on the tile by plant_growth_rate. -/
def Tile.plant_grow (t : Tile) : Tile :=
  t.change_plant_amount t.plant_growth_rate

/-- The board roster state: Gameboard.creatures and Gameboard.removed_creatures.
Creatures are tracked by identity, modelled as natural-number ids. -/
structure Roster where
  creatures : List ℕ
  removed_creatures : List ℕ
deriving DecidableEq

/-- Gameboard.add_to_board / the append performed by Creature.__init__
when a gameboard is supplied: the new creature joins the live list. -/
def Roster.add_to_board (r : Roster) (target : ℕ) : Roster :=
  { r with creatures := r.creatures ++ [target] }

/-- Gameboard.remove_from_board: list.remove raises ValueError when the target
is absent from the live list; otherwise it deletes the first occurrence and
appends the target to removed_creatures. -/
def Roster.remove_from_board (r : Roster) (target : ℕ) : Except String Roster :=
  if target ∈ r.creatures then
    .ok { creatures := r.creatures.erase target,
          removed_creatures := r.removed_creatures ++ [target] }
  else
    .error "ValueError"

/-- A board-roster operation: a creature entering the live roster (construction
or reproduction appends it) or leaving it (die / removal). -/
inductive RosterOp where
  | birth (c : ℕ)
  | death (c : ℕ)
deriving DecidableEq

/-- Apply a roster operation. Births always succeed (list append); deaths go
through Roster.remove_from_board and can fail. -/
def Roster.apply (r : Roster) : RosterOp → Except String Roster
  | .birth c => .ok (r.add_to_board c)
  | .death c => r.remove_from_board c

/-- The creature named by a roster operation. -/
def RosterOp.target : RosterOp → ℕ
  | .birth c => c
  | .death c => c

/-- A creature appears in exactly one of the two roster lists, exactly once. -/
def Roster.exactlyOne (r : Roster) (c : ℕ) : Prop :=
  r.creatures.count c + r.removed_creatures.count c = 1

instance (r : Roster) (c : ℕ) : Decidable (r.exactlyOne c) := by
  unfold Roster.exactlyOne; infer_instance

/-- Precondition under which an operation is invoked in the code: a birth
appends a freshly constructed object (present in neither list); a death
removes a creature currently tracked in exactly one list. -/
def Roster.opPre (r : Roster) : RosterOp → Prop
  | .birth c => r.creatures.count c = 0 ∧ r.removed_creatures.count c = 0
  | .death c => r.exactlyOne c

instance (r : Roster) (op : RosterOp) : Decidable (r.opPre op) := by
  cases op <;> (unfold Roster.opPre; infer_instance)

/-- The Gameboard's dimensions: landscape is a boardsize[0] by boardsize[1]
array of tiles, so landscape.shape = (dimX, dimY). -/
structure Gameboard where
  dimX : ℕ
  dimY : ℕ
deriving DecidableEq

/-- Gameboard.pos_is_valid: a position (x, y) is valid when both coordinates
lie within [0, dimension-1] for their axis. -/
def Gameboard.pos_is_valid (gb : Gameboard) (pos : ℤ × ℤ) : Bool :=
  if ¬(0 ≤ pos.1 ∧ pos.1 ≤ (gb.dimX : ℤ) - 1) then false
  else if ¬(0 ≤ pos.2 ∧ pos.2 ≤ (gb.dimY : ℤ) - 1) then false
  else true

/-- The species tag: organisms.py dispatches attack/eat/inner_turn on the
Python class of the creature (Creature, Herbivore, Predator). -/
inductive CreatureType where
  | creature
  | herbivore
  | predator
deriving DecidableEq

/-- Creature class constants (organisms.py lines 54-57, 81-83). -/
def EXISTENCE_COST : ℚ := -5

/-- Creature.MOVEMENT_COST. -/
def MOVEMENT_COST : ℚ := -5

/-- Creature.ATTACK_COST. -/
def ATTACK_COST : ℚ := -5

/-- Creature.MATING_COST. -/
def MATING_COST : ℚ := -50

/-- Creature.MUTATION_CHANCE = 0.005. -/
def MUTATION_CHANCE : ℚ := 1 / 200

/-- Herbivore.feed_amount. -/
def feed_amount : ℚ := 10

/-- Predator.min_predation_energy. -/
def min_predation_energy : ℚ := 10

/-- The mutable state of a Creature object. -/
structure Creature where
  energy : ℚ
  speed : ℚ
  efficiency : ℚ
  vitality : ℚ
  attack_power : ℚ
  defense : ℚ
  fertility : ℚ
  aggression : ℚ
  maxenergy : ℚ
  maxvitality : ℚ
  location : ℤ × ℤ
  is_alive : Bool
  creature_type : CreatureType
deriving DecidableEq

/-- Creature.__init__: creatures start with half energy and full vitality,
alive. (The roster append it performs is modelled by Roster.add_to_board.) -/
def mkCreature (ct : CreatureType) (location : ℤ × ℤ)
    (maxenergy speed efficiency maxvitality attack_power defense fertility
     aggression : ℚ) : Creature :=
  { energy := maxenergy / 2
    speed := speed
    efficiency := efficiency
    vitality := maxvitality
    attack_power := attack_power
    defense := defense
    fertility := fertility
    aggression := aggression
    maxenergy := maxenergy
    maxvitality := maxvitality
    location := location
    is_alive := true
    creature_type := ct }

/-- Creature.die: sets is_alive to False. (Its call to remove_from_board acts
on the board roster, modelled separately by Roster.remove_from_board.) -/
def Creature.die (c : Creature) : Creature :=
  { c with is_alive := false }

/-- Creature.change_energy: a negative amount is scaled by (1 - efficiency),
a non-negative amount is applied unmodified; then the result is clamped above
at maxenergy, and a result ≤ 0 triggers death (the value is not clamped). -/
def Creature.change_energy (c : Creature) (amount : ℚ) : Creature :=
  let e := if amount < 0 then c.energy + amount * (1 - c.efficiency)
           else c.energy + amount
  if e > c.maxenergy then { c with energy := c.maxenergy }
  else if e ≤ 0 then Creature.die { c with energy := e }
  else { c with energy := e }

/-- Creature.change_vitality: the amount is applied unmodified; the result is
clamped above at maxvitality, and a result ≤ 0 triggers death. -/
def Creature.change_vitality (c : Creature) (amount : ℚ) : Creature :=
  let v := c.vitality + amount
  if v > c.maxvitality then { c with vitality := c.maxvitality }
  else if v ≤ 0 then Creature.die { c with vitality := v }
  else { c with vitality := v }

/-- Creature.take_damage: the incoming amount is reduced by the defender's
defense fraction and applied to vitality. -/
def Creature.take_damage (c : Creature) (amount : ℚ) : Creature :=
  c.change_vitality (-amount * (1 - c.defense))

/-- Creature.attack as defined on the base class: damage the target, pay the
attack cost. Returns (attacker, target) post-states. -/
def Creature.attackBase (c target : Creature) : Creature × Creature :=
  (c.change_energy ATTACK_COST, target.take_damage c.attack_power)

/-- Creature.attack with dynamic dispatch: Predator overrides attack with a
no-op (pass); Herbivore inherits the base implementation. -/
def Creature.attack (c target : Creature) : Creature × Creature :=
  match c.creature_type with
  | .predator => (c, target)
  | _ => Creature.attackBase c target

/-- Creature.move: compute the destination; if the board accepts it, update
the location and pay MOVEMENT_COST; otherwise raise IndexError and change
nothing. -/
def Creature.move (c : Creature) (gb : Gameboard) (delX delY : ℤ) :
    Except String Creature :=
  let new_pos := (c.location.1 + delX, c.location.2 + delY)
  if gb.pos_is_valid new_pos then
    .ok (Creature.change_energy { c with location := new_pos } MOVEMENT_COST)
  else
    .error "Creature cannot move"

/-- get_directions: the 3 by 3 product of {1, 0, -1} with the zero vector
removed, in itertools.product order. -/
def get_directions : List (ℤ × ℤ) :=
  (([1, 0, -1] : List ℤ).product ([1, 0, -1] : List ℤ)).erase (0, 0)

/-- random.choice from a non-empty list, driven by an arbitrary pick index
taken modulo the list length. -/
def chooseDir (dirs : List (ℤ × ℤ)) (p : ℕ) : ℤ × ℤ :=
  dirs.getD (p % dirs.length) (0, 0)

/-- The loop body of Creature.move_randomly: range(length) iterations; each
picks a random remaining direction, tries to move, returns on success and
removes the failed direction otherwise; when the iterations are exhausted,
raise IndexError with the distinct no-valid-movement message. -/
def moveRandomlyLoop (gb : Gameboard) (c : Creature) :
    List ℕ → List (ℤ × ℤ) → ℕ → Except String Creature
  | _, _, 0 => .error "No valid movements found"
  | picks, dirs, n + 1 =>
    let d := chooseDir dirs (picks.headD 0)
    match c.move gb d.1 d.2 with
    | .ok c2 => .ok c2
    | .error _ => moveRandomlyLoop gb c picks.tail (dirs.erase d) n

/-- Creature.move_randomly, with the stream of random choices supplied as a
list of pick indices. -/
def Creature.move_randomly (c : Creature) (gb : Gameboard) (picks : List ℕ) :
    Except String Creature :=
  moveRandomlyLoop gb c picks get_directions get_directions.length

/-- The sum of ratios of the seven power stats to PERFECT_STATS
[200, 100, 50, .5, .5, 3, 1]: the absolute power score. -/
def Creature.power_score_abs (c : Creature) : ℚ :=
  c.maxenergy / 200 + c.maxvitality / 100 + c.attack_power / 50 +
    c.defense / (1 / 2) + c.efficiency / (1 / 2) + c.speed / 3 +
    c.fertility / 1

/-- Creature.power_score: returns the absolute score and the normalized score
(absolute score divided by the number of power stats, 7). -/
def Creature.power_score (c : Creature) : ℚ × ℚ :=
  (c.power_score_abs, c.power_score_abs / 7)

/-- Creature.normalize_power_stats: when the normalized power score exceeds 1,
divide every power stat by it; otherwise change nothing. -/
def Creature.normalize_power_stats (c : Creature) : Creature :=
  let norm_score := c.power_score.2
  if norm_score > 1 then
    { c with
      maxenergy := c.maxenergy / norm_score
      maxvitality := c.maxvitality / norm_score
      attack_power := c.attack_power / norm_score
      defense := c.defense / norm_score
      efficiency := c.efficiency / norm_score
      speed := c.speed / norm_score
      fertility := c.fertility / norm_score }
  else c

/-- Clamp a value into a closed range [lo, hi]: the two independent ifs of
Creature.bring_stats_in_range, both reading the pre-loop value. -/
def clampStat (lo hi v : ℚ) : ℚ :=
  if v < lo then lo else if v > hi then hi else v

/-- Clamp a value into [lo, inf): only the lower bound applies. -/
def clampStatLow (lo v : ℚ) : ℚ :=
  if v < lo then lo else v

/-- Creature.bring_stats_in_range: clamp every mating stat into STAT_RANGES
(maxenergy, maxvitality, attack_power, speed into [0, inf); defense and
efficiency into [0, 0.8]; fertility and aggression into [0, 1]). -/
def Creature.bring_stats_in_range (c : Creature) : Creature :=
  { c with
    maxenergy := clampStatLow 0 c.maxenergy
    maxvitality := clampStatLow 0 c.maxvitality
    attack_power := clampStatLow 0 c.attack_power
    defense := clampStat 0 (8 / 10) c.defense
    efficiency := clampStat 0 (8 / 10) c.efficiency
    speed := clampStatLow 0 c.speed
    fertility := clampStat 0 1 c.fertility
    aggression := clampStat 0 1 c.aggression }

/-- The random draws consumed by the mutation loop of Creature.reproduce: for
each mating stat in order, a uniform draw deciding whether to mutate and a
normal draw sizing the mutation. -/
structure MutDraws where
  u_maxenergy : ℚ
  n_maxenergy : ℚ
  u_maxvitality : ℚ
  n_maxvitality : ℚ
  u_attack_power : ℚ
  n_attack_power : ℚ
  u_defense : ℚ
  n_defense : ℚ
  u_efficiency : ℚ
  n_efficiency : ℚ
  u_speed : ℚ
  n_speed : ℚ
  u_fertility : ℚ
  n_fertility : ℚ
  u_aggression : ℚ
  n_aggression : ℚ
deriving DecidableEq

/-- One step of the mutation loop: when the uniform draw is at most
MUTATION_CHANCE, Creature.mutate_attribute adds factor times the normal draw,
where factor is one tenth of the stat's range (10 when unbounded above). -/
def mutateVal (factor u n v : ℚ) : ℚ :=
  if u ≤ MUTATION_CHANCE then v + factor * n else v

/-- The mutation loop of Creature.reproduce over the offspring's mating stats;
factors come from STAT_RANGES as in Creature.mutate_attribute. -/
def Creature.mutateAll (c : Creature) (d : MutDraws) : Creature :=
  { c with
    maxenergy := mutateVal 10 d.u_maxenergy d.n_maxenergy c.maxenergy
    maxvitality := mutateVal 10 d.u_maxvitality d.n_maxvitality c.maxvitality
    attack_power := mutateVal 10 d.u_attack_power d.n_attack_power c.attack_power
    defense := mutateVal ((8 / 10) / 10) d.u_defense d.n_defense c.defense
    efficiency := mutateVal ((8 / 10) / 10) d.u_efficiency d.n_efficiency c.efficiency
    speed := mutateVal 10 d.u_speed d.n_speed c.speed
    fertility := mutateVal (1 / 10) d.u_fertility d.n_fertility c.fertility
    aggression := mutateVal (1 / 10) d.u_aggression d.n_aggression c.aggression }

/-- Creature.combine_vals followed by the offspring construction in
Creature.reproduce: the offspring is built with the elementwise average of the
parents' mating stats, at the first parent's location and type. -/
def Creature.combineOffspring (c target : Creature) : Creature :=
  mkCreature c.creature_type c.location
    ((c.maxenergy + target.maxenergy) / 2)
    ((c.speed + target.speed) / 2)
    ((c.efficiency + target.efficiency) / 2)
    ((c.maxvitality + target.maxvitality) / 2)
    ((c.attack_power + target.attack_power) / 2)
    ((c.defense + target.defense) / 2)
    ((c.fertility + target.fertility) / 2)
    ((c.aggression + target.aggression) / 2)

/-- Creature.reproduce: build the offspring from averaged stats, mutate,
clamp, power-normalize, charge MATING_COST to both parents, then apply the
three non-viability guards (each calls die on the offspring). Returns
(self, target, offspring) post-states. -/
def Creature.reproduce (c target : Creature) (d : MutDraws) :
    Creature × Creature × Creature :=
  let off0 := Creature.combineOffspring c target
  let off1 := off0.mutateAll d
  let off2 := off1.bring_stats_in_range
  let off3 := off2.normalize_power_stats
  let c2 := c.change_energy MATING_COST
  let t2 := target.change_energy MATING_COST
  let off4 := if off3.maxenergy ≤ 0 then off3.die else off3
  let off5 := if off4.maxvitality ≤ 0 then off4.die else off4
  let off6 := if off5.speed < 1 then off5.die else off5
  (c2, t2, off6)

/-- Creature.mate: reproduction happens only when both uniform draws clear
the corresponding parent's (1 - fertility); otherwise nothing happens and
None is returned. -/
def Creature.mate (c target : Creature) (r1 r2 : ℚ) (d : MutDraws) :
    Creature × Creature × Option Creature :=
  if r1 > 1 - c.fertility ∧ r2 > 1 - target.fertility then
    let res := Creature.reproduce c target d
    (res.1, res.2.1, some res.2.2)
  else
    (c, target, none)

/-- Herbivore.eat: take min(feed_amount, plant on tile) from the current tile
and convert it 1:1 into energy. Returns (creature, tile) post-states. -/
def Herbivore.eat (c : Creature) (tile : Tile) : Creature × Tile :=
  let amt := if tile.plant_material ≤ feed_amount then tile.plant_material
             else feed_amount
  (c.change_energy amt, tile.change_plant_amount (-amt))

/-- Predator.consume: gain max(min_predation_energy, target.energy) energy;
the target is not touched. Returns (predator, target) post-states. -/
def Predator.consume (c target : Creature) : Creature × Creature :=
  let adder := max min_predation_energy target.energy
  (c.change_energy adder, target)

/-! ## Theorems -/

/-- C8: for every tile with a non-negative capacity, after any
change_plant_amount call the plant material lies in
[0, max_plant_material]; and plant_grow (for a tile currently in range with
non-negative growth rate) adds plant_growth_rate clamped at
max_plant_material, with no failure mode. -/
theorem tile_change_amount_bounds (t : Tile) (amount : ℚ)
    (hmax : 0 ≤ t.max_plant_material) (hp0 : 0 ≤ t.plant_material)
    (hrate : 0 ≤ t.plant_growth_rate) :
    (0 ≤ (t.change_plant_amount amount).plant_material ∧
      (t.change_plant_amount amount).plant_material ≤ t.max_plant_material) ∧
    t.plant_grow.plant_material =
      min (t.plant_material + t.plant_growth_rate) t.max_plant_material := by
  unfold Tile.plant_grow Tile.change_plant_amount
  dsimp only
  refine ⟨?_, ?_⟩
  · constructor <;> split_ifs <;> dsimp only <;> linarith
  · split_ifs with h1 h2 <;> dsimp only
    · rw [min_eq_right]
      linarith
    · linarith
    · rw [min_eq_left]
      linarith

/-- C8 witness: a Prarie tile at capacity 25 with 10 plant and growth rate 5,
receiving a change of +100. -/
theorem tile_change_amount_bounds_witness :
    (0 ≤ ((Tile.mk 25 10 5).change_plant_amount 100).plant_material ∧
      ((Tile.mk 25 10 5).change_plant_amount 100).plant_material ≤
        (Tile.mk 25 10 5).max_plant_material) ∧
    (Tile.mk 25 10 5).plant_grow.plant_material =
      min ((Tile.mk 25 10 5).plant_material + (Tile.mk 25 10 5).plant_growth_rate)
        (Tile.mk 25 10 5).max_plant_material :=
  tile_change_amount_bounds (Tile.mk 25 10 5) 100 (by norm_num) (by norm_num)
    (by norm_num)

/-- C9: every successful roster operation (a birth appending a fresh creature,
as in construction or reproduction, or a death removing a tracked creature)
leaves the affected creature in exactly one of creatures/removed_creatures,
and preserves that invariant for every other creature. -/
theorem roster_exactly_one (r r2 : Roster) (op : RosterOp)
    (hpre : r.opPre op) (hok : r.apply op = .ok r2) :
    r2.exactlyOne op.target ∧ ∀ c, r.exactlyOne c → r2.exactlyOne c := by
  cases op with
  | birth b =>
    obtain ⟨h1, h2⟩ := hpre
    simp only [Roster.apply, Roster.add_to_board, Except.ok.injEq] at hok
    subst hok
    constructor
    · simp only [Roster.exactlyOne, RosterOp.target, List.count_append,
        List.count_singleton', if_true]
      omega
    · intro c hc
      simp only [Roster.exactlyOne] at hc
      simp only [Roster.exactlyOne, List.count_append, List.count_singleton']
      rcases eq_or_ne b c with rfl | hne
      · rw [if_pos rfl]
        omega
      · rw [if_neg hne]
        omega
  | death b =>
    simp only [Roster.opPre, Roster.exactlyOne] at hpre
    simp only [Roster.apply, Roster.remove_from_board] at hok
    split_ifs at hok with hmem
    · simp only [Except.ok.injEq] at hok
      subst hok
      have hcount : 0 < r.creatures.count b := List.count_pos_iff.mpr hmem
      constructor
      · simp only [Roster.exactlyOne, RosterOp.target, List.count_append,
          List.count_erase_self, List.count_singleton', if_true]
        omega
      · intro c hc
        simp only [Roster.exactlyOne] at hc
        simp only [Roster.exactlyOne, List.count_append, List.count_singleton']
        rcases eq_or_ne c b with rfl | hne
        · rw [List.count_erase_self, if_pos rfl]
          omega
        · rw [List.count_erase_of_ne hne, if_neg (Ne.symm hne)]
          omega

/-- C9 witness: on the roster with live creatures [0, 1] and removed [2],
removing creature 1. -/
theorem roster_exactly_one_witness :
    (Roster.mk [0] [2, 1]).exactlyOne (RosterOp.death 1).target ∧
      ∀ c, (Roster.mk [0, 1] [2]).exactlyOne c →
        (Roster.mk [0] [2, 1]).exactlyOne c :=
  roster_exactly_one (Roster.mk [0, 1] [2]) (Roster.mk [0] [2, 1])
    (RosterOp.death 1) (by decide) (by rfl)

/-- The Creature built from the default keyword arguments of
Creature.__init__, placed at the origin. -/
def defaultCreature (ct : CreatureType) : Creature :=
  mkCreature ct (0, 0) 100 1 (1 / 2) 100 25 (1 / 2) (1 / 2) (1 / 4)

/-- Helper: for a negative amount that keeps the result under the cap,
change_energy adds exactly amount * (1 - efficiency); no lower clamp exists. -/
theorem change_energy_neg (c : Creature) (a : ℚ) (ha : a < 0)
    (hcap : c.energy + a * (1 - c.efficiency) ≤ c.maxenergy) :
    (c.change_energy a).energy = c.energy + a * (1 - c.efficiency) := by
  unfold Creature.change_energy Creature.die
  dsimp only
  rw [if_pos ha]
  split_ifs with h1 h2 <;> dsimp only <;> linarith

/-- Helper: a non-negative amount is applied unmodified and clamped at
maxenergy. -/
theorem change_energy_nonneg (c : Creature) (a : ℚ) (ha : 0 ≤ a) :
    (c.change_energy a).energy = min (c.energy + a) c.maxenergy := by
  unfold Creature.change_energy Creature.die
  dsimp only
  rw [if_neg (not_lt.mpr ha)]
  split_ifs with h1 h2 <;> dsimp only
  all_goals first
    | (rw [min_eq_right] <;> linarith)
    | (rw [min_eq_left] <;> linarith)

/-- Helper: change_energy leaves is_alive untouched when the applied result is
positive (no death branch is taken). -/
theorem change_energy_is_alive (c : Creature) (a : ℚ)
    (h : 0 < (if a < 0 then c.energy + a * (1 - c.efficiency)
              else c.energy + a)) :
    (c.change_energy a).is_alive = c.is_alive := by
  unfold Creature.change_energy Creature.die
  dsimp only
  split_ifs at h ⊢ <;> dsimp only <;> first | rfl | (exfalso; linarith)

/-- C1 counterexample: the default creature (energy 50, efficiency 0.5) after
change_energy(-200) is left with energy -50: the post-call value is NOT
clamped below at 0, refuting that it always lies in [0, max]. -/
theorem change_energy_not_clamped_below :
    ((defaultCreature .creature).change_energy (-200)).energy < 0 := by
  norm_num [defaultCreature, mkCreature, Creature.change_energy, Creature.die]

/-- C1 (amended): for a live creature with positive caps, after change_energy
or change_vitality the affected value is clamped at maxenergy resp.
maxvitality above (it is not clamped below and may be negative), and the
post-call value is ≤ 0 iff is_alive became false during that call. -/
theorem change_energy_vitality_spec (c : Creature) (a b : ℚ)
    (halive : c.is_alive = true) (hme : 0 < c.maxenergy)
    (hmv : 0 < c.maxvitality) :
    ((c.change_energy a).energy ≤ c.maxenergy ∧
      ((c.change_energy a).energy ≤ 0 ↔ (c.change_energy a).is_alive = false)) ∧
    ((c.change_vitality b).vitality ≤ c.maxvitality ∧
      ((c.change_vitality b).vitality ≤ 0 ↔
        (c.change_vitality b).is_alive = false)) := by
  unfold Creature.change_energy Creature.change_vitality Creature.die
  dsimp only
  constructor
  · constructor
    · split_ifs <;> dsimp only <;> linarith
    · split_ifs with h1 h2 h3 <;> dsimp only <;> simp [halive] <;> linarith
  · constructor
    · split_ifs <;> dsimp only <;> linarith
    · split_ifs with h1 h2 <;> dsimp only <;> simp [halive] <;> linarith

/-- C1 witness: the amended theorem applied to the default creature with
changes of -10 to energy and to vitality. -/
theorem change_energy_vitality_spec_witness :
    ((defaultCreature .creature).change_energy (-10)).energy ≤
        (defaultCreature .creature).maxenergy ∧
      (((defaultCreature .creature).change_energy (-10)).energy ≤ 0 ↔
        ((defaultCreature .creature).change_energy (-10)).is_alive = false) :=
  (change_energy_vitality_spec (defaultCreature .creature) (-10) (-10) rfl
    (by norm_num [defaultCreature, mkCreature])
    (by norm_num [defaultCreature, mkCreature])).1

/-- C2 counterexample: a default Predator attacking a default Creature changes
nothing: the target keeps its full vitality (100, not 100 - 25 x 0.5) and the
attacker pays no energy, refuting the claim for the Predator species variant
whose attack override is a no-op. -/
theorem predator_attack_noop :
    ((defaultCreature .predator).attack (defaultCreature .creature)).2.vitality =
        (defaultCreature .creature).vitality ∧
      (defaultCreature .creature).vitality ≠
        (defaultCreature .creature).vitality -
          (defaultCreature .predator).attack_power *
            (1 - (defaultCreature .creature).defense) ∧
      ((defaultCreature .predator).attack (defaultCreature .creature)).1.energy =
        (defaultCreature .predator).energy := by
  refine ⟨rfl, ?_, rfl⟩
  norm_num [defaultCreature, mkCreature]

/-- C2 (amended): for every attacker whose species is not Predator (base
creatures and herbivores), attack(target) reduces the target's vitality by
exactly attack_power x (1 - target.defense), costs the attacker
ATTACK_COST x (1 - efficiency) energy, and the target dies in the call iff
its vitality thereby reaches ≤ 0; Predator.attack is a no-op. -/
theorem attack_spec (c t : Creature) (hct : c.creature_type ≠ .predator)
    (hap : 0 ≤ c.attack_power) (hdef : t.defense ≤ 1)
    (hv : t.vitality ≤ t.maxvitality) (heff : c.efficiency ≤ 1)
    (he : c.energy ≤ c.maxenergy) (htal : t.is_alive = true) :
    (c.attack t).2.vitality = t.vitality - c.attack_power * (1 - t.defense) ∧
    (c.attack t).1.energy = c.energy + ATTACK_COST * (1 - c.efficiency) ∧
    ((c.attack t).2.vitality ≤ 0 ↔ (c.attack t).2.is_alive = false) := by
  have hdmg : 0 ≤ c.attack_power * (1 - t.defense) :=
    mul_nonneg hap (by linarith)
  have hbase : c.attack t = Creature.attackBase c t := by
    unfold Creature.attack
    cases hc : c.creature_type
    · rfl
    · rfl
    · exact absurd hc hct
  rw [hbase]
  unfold Creature.attackBase Creature.take_damage Creature.change_vitality
    Creature.change_energy Creature.die ATTACK_COST
  dsimp only
  refine ⟨?_, ?_, ?_⟩
  · split_ifs with h1 h2 <;> dsimp only <;> first | ring1 | linarith
  · split_ifs with h0 h1 h2 <;> dsimp only <;> first | rfl | linarith | ring1
  · split_ifs with h1 h2 <;> dsimp only <;> simp [htal] <;> linarith

/-- C2 witness: the amended theorem applied to a default base creature
attacking another. -/
theorem attack_spec_witness :
    ((defaultCreature .creature).attack (defaultCreature .creature)).2.vitality =
      (defaultCreature .creature).vitality -
        (defaultCreature .creature).attack_power *
          (1 - (defaultCreature .creature).defense) :=
  (attack_spec (defaultCreature .creature) (defaultCreature .creature)
    (by simp [defaultCreature, mkCreature])
    (by norm_num [defaultCreature, mkCreature])
    (by norm_num [defaultCreature, mkCreature])
    (by norm_num [defaultCreature, mkCreature])
    (by norm_num [defaultCreature, mkCreature])
    (by norm_num [defaultCreature, mkCreature]) rfl).1

/-- Helper: change_energy only touches energy and is_alive; every other field
is unchanged. -/
theorem change_energy_frame (c : Creature) (a : ℚ) :
    (c.change_energy a).location = c.location ∧
    (c.change_energy a).maxenergy = c.maxenergy ∧
    (c.change_energy a).efficiency = c.efficiency ∧
    (c.change_energy a).vitality = c.vitality := by
  unfold Creature.change_energy Creature.die
  dsimp only
  split_ifs <;> exact ⟨rfl, rfl, rfl, rfl⟩

/-- C4: a single-step move to an out-of-bounds destination raises IndexError
with no state change; an in-bounds move updates the location and decreases
energy by exactly MOVEMENT_COST scaled by (1 - efficiency), while
non-negative energy changes are never scaled by efficiency (only clamped at
maxenergy). -/
theorem move_spec (c : Creature) (gb : Gameboard) (dX dY : ℤ)
    (heff : c.efficiency ≤ 1) (he : c.energy ≤ c.maxenergy) :
    (gb.pos_is_valid (c.location.1 + dX, c.location.2 + dY) = false →
      c.move gb dX dY = .error "Creature cannot move") ∧
    (gb.pos_is_valid (c.location.1 + dX, c.location.2 + dY) = true →
      ∃ c2, c.move gb dX dY = .ok c2 ∧
        c2.location = (c.location.1 + dX, c.location.2 + dY) ∧
        c2.energy = c.energy + MOVEMENT_COST * (1 - c.efficiency)) ∧
    (∀ a, 0 ≤ a →
      (c.change_energy a).energy = min (c.energy + a) c.maxenergy) := by
  refine ⟨?_, ?_, fun a ha => change_energy_nonneg c a ha⟩
  · intro h
    unfold Creature.move
    dsimp only
    rw [h]
    rfl
  · intro h
    unfold Creature.move
    dsimp only
    rw [h]
    refine ⟨_, rfl, ?_, ?_⟩
    · exact (change_energy_frame _ MOVEMENT_COST).1
    · rw [change_energy_neg _ MOVEMENT_COST (by norm_num [MOVEMENT_COST])]
      unfold MOVEMENT_COST
      dsimp only
      linarith

/-- C4 witness: the default creature at (0, 0) on a 10 x 5 board moving by
(1, 1). -/
theorem move_spec_witness :
    ∃ c2, (defaultCreature .creature).move (Gameboard.mk 10 5) 1 1 = .ok c2 ∧
      c2.location = ((defaultCreature .creature).location.1 + 1,
        (defaultCreature .creature).location.2 + 1) ∧
      c2.energy = (defaultCreature .creature).energy +
        MOVEMENT_COST * (1 - (defaultCreature .creature).efficiency) :=
  (move_spec (defaultCreature .creature) (Gameboard.mk 10 5) 1 1
    (by norm_num [defaultCreature, mkCreature])
    (by norm_num [defaultCreature, mkCreature])).2.1 rfl

/-- C7: Herbivore.eat transfers exactly min(feed_amount, plant_material) from
the tile to the herbivore, 1:1, for a tile within bounds, provided the gain
does not exceed the herbivore's remaining energy headroom. -/
theorem herbivore_eat_spec (c : Creature) (tile : Tile)
    (hp0 : 0 ≤ tile.plant_material)
    (hpm : tile.plant_material ≤ tile.max_plant_material)
    (hroom : c.energy + min feed_amount tile.plant_material ≤ c.maxenergy) :
    (Herbivore.eat c tile).1.energy =
        c.energy + min feed_amount tile.plant_material ∧
    (Herbivore.eat c tile).2.plant_material =
        tile.plant_material - min feed_amount tile.plant_material := by
  have hamt : (if tile.plant_material ≤ feed_amount then tile.plant_material
      else feed_amount) = min feed_amount tile.plant_material := by
    rw [min_comm, min_def]
  have hnn : 0 ≤ min feed_amount tile.plant_material :=
    le_min (by norm_num [feed_amount]) hp0
  have hle : min feed_amount tile.plant_material ≤ tile.plant_material :=
    min_le_right _ _
  unfold Herbivore.eat
  dsimp only
  rw [hamt]
  constructor
  · rw [change_energy_nonneg c _ hnn, min_eq_left hroom]
  · unfold Tile.change_plant_amount
    dsimp only
    split_ifs <;> dsimp only <;> linarith

/-- C7 witness: the spec's concrete instance, a default herbivore (energy 50,
maxenergy 100) on a tile with plant_material 5 and feed_amount 10: exactly 5
energy is gained and the tile is left at 0. -/
theorem herbivore_eat_spec_witness :
    ((Herbivore.eat (defaultCreature .herbivore) (Tile.mk 25 5 5)).1.energy =
        (defaultCreature .herbivore).energy +
          min feed_amount (Tile.mk 25 5 5).plant_material ∧
      (Herbivore.eat (defaultCreature .herbivore) (Tile.mk 25 5 5)).2.plant_material =
        (Tile.mk 25 5 5).plant_material -
          min feed_amount (Tile.mk 25 5 5).plant_material) ∧
    min feed_amount (Tile.mk 25 5 5).plant_material = 5 :=
  ⟨herbivore_eat_spec (defaultCreature .herbivore) (Tile.mk 25 5 5)
      (by norm_num) (by norm_num)
      (by norm_num [defaultCreature, mkCreature, feed_amount, min_def]),
    by norm_num [feed_amount, min_def]⟩

/-- C10: Predator.consume increases only the predator's own energy, by
max(min_predation_energy, target.energy) clamped at maxenergy, keeps the
predator alive (given non-negative energy), and leaves the target creature
entirely unchanged: its energy, vitality, is_alive flag and location are the
same after the call, and no board-roster operation is performed. -/
theorem predator_consume_spec (c t : Creature) (he : 0 ≤ c.energy) :
    (Predator.consume c t).1.energy =
        min (c.energy + max min_predation_energy t.energy) c.maxenergy ∧
    (Predator.consume c t).1.is_alive = c.is_alive ∧
    (Predator.consume c t).2 = t := by
  have hadd : (0:ℚ) ≤ max min_predation_energy t.energy :=
    le_trans (by norm_num [min_predation_energy]) (le_max_left _ _)
  have hten : min_predation_energy ≤ max min_predation_energy t.energy :=
    le_max_left _ _
  unfold Predator.consume
  dsimp only
  refine ⟨change_energy_nonneg c _ hadd, ?_, rfl⟩
  apply change_energy_is_alive
  rw [if_neg (not_lt.mpr hadd)]
  unfold min_predation_energy at hten ⊢
  linarith

/-- C10 witness: a default predator consuming a default creature. -/
theorem predator_consume_spec_witness :
    (Predator.consume (defaultCreature .predator) (defaultCreature .creature)).1.energy =
        min ((defaultCreature .predator).energy +
          max min_predation_energy (defaultCreature .creature).energy)
          (defaultCreature .predator).maxenergy ∧
      (Predator.consume (defaultCreature .predator)
          (defaultCreature .creature)).1.is_alive =
        (defaultCreature .predator).is_alive ∧
      (Predator.consume (defaultCreature .predator)
          (defaultCreature .creature)).2 = defaultCreature .creature :=
  predator_consume_spec (defaultCreature .predator) (defaultCreature .creature)
    (by norm_num [defaultCreature, mkCreature])

/-- C3: mate charges MATING_COST (discounted by each parent's own efficiency)
to both parents iff the stochastic gate passes and reproduction occurs; when
the gate fails there is no offspring, no energy cost and no state change to
either parent; and with a fertility-0 parent no pair of draws in [0, 1] ever
produces offspring. -/
theorem mate_spec (c t : Creature) (r1 r2 : ℚ) (d : MutDraws)
    (heffc : c.efficiency ≤ 1) (hec : c.energy ≤ c.maxenergy)
    (hefft : t.efficiency ≤ 1) (het : t.energy ≤ t.maxenergy)
    (hr1 : r1 ≤ 1) (hr2 : r2 ≤ 1) :
    ((r1 > 1 - c.fertility ∧ r2 > 1 - t.fertility) →
      (Creature.mate c t r1 r2 d).2.2.isSome = true ∧
      (Creature.mate c t r1 r2 d).1.energy =
        c.energy + MATING_COST * (1 - c.efficiency) ∧
      (Creature.mate c t r1 r2 d).2.1.energy =
        t.energy + MATING_COST * (1 - t.efficiency)) ∧
    (¬(r1 > 1 - c.fertility ∧ r2 > 1 - t.fertility) →
      Creature.mate c t r1 r2 d = (c, t, none)) ∧
    ((c.fertility = 0 ∨ t.fertility = 0) →
      (Creature.mate c t r1 r2 d).2.2 = none) := by
  have hgateFail : (c.fertility = 0 ∨ t.fertility = 0) →
      ¬(r1 > 1 - c.fertility ∧ r2 > 1 - t.fertility) := by
    rintro (h0 | h0) ⟨hg1, hg2⟩
    · rw [h0] at hg1
      linarith
    · rw [h0] at hg2
      linarith
  refine ⟨?_, ?_, ?_⟩
  · intro hgate
    unfold Creature.mate
    rw [if_pos hgate]
    unfold Creature.reproduce
    dsimp only
    refine ⟨rfl, ?_, ?_⟩
    · rw [change_energy_neg c MATING_COST (by norm_num [MATING_COST])]
      unfold MATING_COST
      linarith
    · rw [change_energy_neg t MATING_COST (by norm_num [MATING_COST])]
      unfold MATING_COST
      linarith
  · intro hgate
    unfold Creature.mate
    rw [if_neg hgate]
  · intro h0
    unfold Creature.mate
    rw [if_neg (hgateFail h0)]

/-- C3 witness: fertile parents (draws 9/10 each) reproduce and are charged;
reusing the theorem at a fertility-0 first parent for the never-offspring
branch is covered by the same statement's third conjunct. -/
theorem mate_spec_witness :
    (Creature.mate (defaultCreature .creature) (defaultCreature .creature)
        (9 / 10) (9 / 10) (MutDraws.mk 1 0 1 0 1 0 1 0 1 0 1 0 1 0 1 0)).2.2.isSome =
      true ∧
    (Creature.mate (defaultCreature .creature) (defaultCreature .creature)
        (9 / 10) (9 / 10) (MutDraws.mk 1 0 1 0 1 0 1 0 1 0 1 0 1 0 1 0)).1.energy =
      (defaultCreature .creature).energy +
        MATING_COST * (1 - (defaultCreature .creature).efficiency) ∧
    (Creature.mate (defaultCreature .creature) (defaultCreature .creature)
        (9 / 10) (9 / 10) (MutDraws.mk 1 0 1 0 1 0 1 0 1 0 1 0 1 0 1 0)).2.1.energy =
      (defaultCreature .creature).energy +
        MATING_COST * (1 - (defaultCreature .creature).efficiency) :=
  (mate_spec (defaultCreature .creature) (defaultCreature .creature)
      (9 / 10) (9 / 10) (MutDraws.mk 1 0 1 0 1 0 1 0 1 0 1 0 1 0 1 0)
      (by norm_num [defaultCreature, mkCreature])
      (by norm_num [defaultCreature, mkCreature])
      (by norm_num [defaultCreature, mkCreature])
      (by norm_num [defaultCreature, mkCreature])
      (by norm_num) (by norm_num)).1
    (by constructor <;> norm_num [defaultCreature, mkCreature])

/-- C6: when the normalized power score exceeds 1, normalize_power_stats
divides every power stat by it and the recomputed normalized score is exactly
1; when the score is at most 1 nothing changes. -/
theorem normalize_power_stats_spec (c : Creature) :
    (c.power_score.2 > 1 →
      (c.normalize_power_stats.power_score.2 = 1 ∧
        c.normalize_power_stats.maxenergy = c.maxenergy / c.power_score.2 ∧
        c.normalize_power_stats.maxvitality = c.maxvitality / c.power_score.2 ∧
        c.normalize_power_stats.attack_power = c.attack_power / c.power_score.2 ∧
        c.normalize_power_stats.defense = c.defense / c.power_score.2 ∧
        c.normalize_power_stats.efficiency = c.efficiency / c.power_score.2 ∧
        c.normalize_power_stats.speed = c.speed / c.power_score.2 ∧
        c.normalize_power_stats.fertility = c.fertility / c.power_score.2)) ∧
    (c.power_score.2 ≤ 1 → c.normalize_power_stats = c) := by
  constructor
  · intro h
    have h7 : (1:ℚ) < c.power_score_abs / 7 := h
    have hs : c.power_score_abs ≠ 0 := by
      intro h0
      rw [h0] at h7
      norm_num at h7
    have key : c.normalize_power_stats.power_score_abs =
        c.power_score_abs / (c.power_score_abs / 7) := by
      unfold Creature.normalize_power_stats Creature.power_score
      dsimp only
      rw [if_pos h7]
      unfold Creature.power_score_abs
      dsimp only
      ring
    refine ⟨?_, ?_, ?_, ?_, ?_, ?_, ?_, ?_⟩
    · show c.normalize_power_stats.power_score_abs / 7 = 1
      rw [key]
      field_simp
    all_goals
      unfold Creature.normalize_power_stats
      dsimp only
      rw [if_pos h]
  · intro h
    unfold Creature.normalize_power_stats
    dsimp only
    rw [if_neg (not_lt.mpr h)]

/-- C6 witness: a creature with doubled perfect stats (normalized score 2) is
scaled back to normalized score exactly 1, each stat halved. -/
theorem normalize_power_stats_spec_witness :
    (mkCreature .creature (0, 0) 400 6 1 200 100 1 2 0).normalize_power_stats.power_score.2 =
        1 ∧
      (mkCreature .creature (0, 0) 400 6 1 200 100 1 2
          0).normalize_power_stats.maxenergy =
        (mkCreature .creature (0, 0) 400 6 1 200 100 1 2 0).maxenergy /
          (mkCreature .creature (0, 0) 400 6 1 200 100 1 2 0).power_score.2 :=
  ⟨((normalize_power_stats_spec (mkCreature .creature (0, 0) 400 6 1 200 100 1 2 0)).1
      (by norm_num [mkCreature, Creature.power_score, Creature.power_score_abs])).1,
    ((normalize_power_stats_spec (mkCreature .creature (0, 0) 400 6 1 200 100 1 2 0)).1
      (by norm_num [mkCreature, Creature.power_score, Creature.power_score_abs])).2.1⟩

/-- The board accepts the one-step destination of direction d from c. -/
def validDir (gb : Gameboard) (c : Creature) (d : ℤ × ℤ) : Bool :=
  gb.pos_is_valid (c.location.1 + d.1, c.location.2 + d.2)

/-- Helper: a move in an accepted direction succeeds with the moved,
energy-charged creature. -/
theorem move_eq_ok (c : Creature) (gb : Gameboard) (d : ℤ × ℤ)
    (h : validDir gb c d = true) :
    c.move gb d.1 d.2 = .ok (Creature.change_energy
      { c with location := (c.location.1 + d.1, c.location.2 + d.2) }
      MOVEMENT_COST) := by
  unfold Creature.move
  unfold validDir at h
  dsimp only
  rw [h]
  rfl

/-- Helper: a move in a rejected direction raises IndexError. -/
theorem move_eq_error (c : Creature) (gb : Gameboard) (d : ℤ × ℤ)
    (h : validDir gb c d = false) :
    c.move gb d.1 d.2 = .error "Creature cannot move" := by
  unfold Creature.move
  unfold validDir at h
  dsimp only
  rw [h]
  rfl

/-- Helper: random.choice picks a member of any non-empty list. -/
theorem chooseDir_mem (dirs : List (ℤ × ℤ)) (p : ℕ) (h : dirs ≠ []) :
    chooseDir dirs p ∈ dirs := by
  unfold chooseDir
  have hlen : 0 < dirs.length := List.length_pos.mpr h
  have hlt : p % dirs.length < dirs.length := Nat.mod_lt _ hlen
  rw [List.getD_eq_getElem dirs _ hlt]
  exact List.getElem_mem hlt

/-- Helper: the retry loop of move_randomly, for any pick stream, succeeds
with a one-step move in some accepted direction iff the remaining direction
list contains one, and otherwise raises the distinct IndexError. -/
theorem moveRandomlyLoop_spec (gb : Gameboard) (c : Creature) :
    ∀ (n : ℕ) (dirs : List (ℤ × ℤ)) (picks : List ℕ), dirs.length = n →
      ((∀ d ∈ dirs, validDir gb c d = false) →
        moveRandomlyLoop gb c picks dirs n = .error "No valid movements found") ∧
      ((∃ d ∈ dirs, validDir gb c d = true) →
        ∃ d ∈ dirs, validDir gb c d = true ∧
          moveRandomlyLoop gb c picks dirs n = .ok (Creature.change_energy
            { c with location := (c.location.1 + d.1, c.location.2 + d.2) }
            MOVEMENT_COST)) := by
  intro n
  induction n with
  | zero =>
    intro dirs picks hlen
    constructor
    · intro _
      rfl
    · rintro ⟨d, hd, _⟩
      rw [List.length_eq_zero] at hlen
      subst hlen
      cases hd
  | succ n ih =>
    intro dirs picks hlen
    have hne : dirs ≠ [] := by
      intro h0
      rw [h0] at hlen
      simp at hlen
    have hdmem : chooseDir dirs (picks.headD 0) ∈ dirs := chooseDir_mem dirs _ hne
    have herase : (dirs.erase (chooseDir dirs (picks.headD 0))).length = n := by
      rw [List.length_erase_of_mem hdmem, hlen]
      omega
    constructor
    · intro hall
      have hinvalid : validDir gb c (chooseDir dirs (picks.headD 0)) = false :=
        hall _ hdmem
      unfold moveRandomlyLoop
      dsimp only
      rw [move_eq_error c gb _ hinvalid]
      exact (ih _ picks.tail herase).1
        (fun d2 hd2 => hall d2 (List.mem_of_mem_erase hd2))
    · rintro ⟨v, hv, hvalid⟩
      by_cases hvd : validDir gb c (chooseDir dirs (picks.headD 0)) = true
      · refine ⟨_, hdmem, hvd, ?_⟩
        unfold moveRandomlyLoop
        dsimp only
        rw [move_eq_ok c gb _ hvd]
      · have hdf : validDir gb c (chooseDir dirs (picks.headD 0)) = false := by
          cases hbool : validDir gb c (chooseDir dirs (picks.headD 0))
          · rfl
          · exact absurd hbool hvd
        have hvne : v ≠ chooseDir dirs (picks.headD 0) := by
          intro h0
          rw [h0, hdf] at hvalid
          cases hvalid
        unfold moveRandomlyLoop
        dsimp only
        rw [move_eq_error c gb _ hdf]
        obtain ⟨d2, hd2mem, hd2val, hres⟩ := (ih _ picks.tail herase).2
          ⟨v, (List.mem_erase_of_ne hvne).mpr hv, hvalid⟩
        exact ⟨d2, List.mem_of_mem_erase hd2mem, hd2val, hres⟩

/-- C5: move_randomly moves the creature exactly one step to some in-bounds
neighbor iff at least one of the 8 neighboring offsets is in bounds; when all
8 destinations are out of bounds it raises the distinct no-valid-movement
IndexError (and, the model being functional, the creature is unchanged). -/
theorem move_randomly_spec (c : Creature) (gb : Gameboard) (picks : List ℕ) :
    ((∀ d ∈ get_directions, validDir gb c d = false) →
      c.move_randomly gb picks = .error "No valid movements found") ∧
    ((∃ d ∈ get_directions, validDir gb c d = true) →
      ∃ d ∈ get_directions, validDir gb c d = true ∧
        c.move_randomly gb picks = .ok (Creature.change_energy
          { c with location := (c.location.1 + d.1, c.location.2 + d.2) }
          MOVEMENT_COST)) :=
  moveRandomlyLoop_spec gb c get_directions.length get_directions picks rfl

/-- C5 witness: on a 1 x 1 board the default creature at the origin has no
in-bounds neighbor, and move_randomly (here with an empty pick stream) raises
the no-valid-movement IndexError. -/
theorem move_randomly_spec_witness :
    (defaultCreature .creature).move_randomly (Gameboard.mk 1 1) [] =
      .error "No valid movements found" :=
  (move_randomly_spec (defaultCreature .creature) (Gameboard.mk 1 1) []).1
    (by decide)

end Ecotrajectory
